import Mathlib

/-!
Verification of the trao-weather-ai backend (a multi-user weather dashboard:
Express controllers → services → repositories → MongoDB document store).

Shallow embedding: the City/User collections become lists of Lean structures,
the repository helpers become pure list functions, the HTTP handlers become
pure functions from (store, authenticated user, request body, external-API
outcomes) to (response, new store).  External HTTP calls (OpenWeather
geocoding, OpenWeather weather, Gemini) are parameters: the list / outcome the
external API would have returned for the request at hand.  Handlers also
record which external calls they issued, mirroring the sequencing of the
`await` statements in the source.

JavaScript string truthiness (missing / "" are falsy) is modelled with
`Option String` plus explicit emptiness tests; JS numbers that only ever hold
exact decimal literals (parsed temperatures) are modelled as `ℚ`.
-/

namespace Trao

/-- JavaScript `String.prototype.toLowerCase` over the ASCII range: lowercase
every character. -/
def toLowerCase (s : String) : String :=
  ⟨s.data.map Char.toLower⟩

/-- JavaScript `String.prototype.toUpperCase` over the ASCII range: uppercase
every character. -/
def toUpperCase (s : String) : String :=
  ⟨s.data.map Char.toUpper⟩

/-- JavaScript `String.prototype.trim`: strip leading and trailing
whitespace. -/
def jsTrim (s : String) : String :=
  ⟨((s.data.dropWhile Char.isWhitespace).reverse.dropWhile
      Char.isWhitespace).reverse⟩

/-- `str.split(sep)` for a one-character separator, on character lists. -/
def splitOnChar (sep : Char) : List Char → List (List Char)
  | [] => [[]]
  | c :: cs =>
    let r := splitOnChar sep cs
    if c = sep then [] :: r
    else
      match r with
      | [] => [[c]]
      | h :: t => (c :: h) :: t

/-- `lines.join("\n")`. -/
def joinLines : List String → String
  | [] => ""
  | [l] => l
  | l :: ls => l ++ "\n" ++ joinLines ls

/-! ## Data model (src/backend/src/models/city.model.ts, user model) -/

/-- A document of the City collection.  `_id` and `userId` (Mongo ObjectIds)
are modelled as `Nat`.  Fields mirror `ICity`. -/
structure City where
  id : Nat
  userId : Nat
  name : String
  nameNormalized : String
  country : Option String
  apiCityId : Option String
  isFavorite : Bool
deriving DecidableEq, Repr

/-- The compound key of the unique index declared by
`citySchema.index({ userId: 1, nameNormalized: 1, country: 1 }, { unique: true })`.
A missing `country` participates in the index as null, so `Option String`
equality is the right comparison. -/
def cityKey (c : City) : Nat × String × Option String :=
  (c.userId, c.nameNormalized, c.country)

/-- The unique compound index invariant of the City collection. -/
def uniqueIndexOk (store : List City) : Prop :=
  store.Pairwise (fun a b => cityKey a ≠ cityKey b)

/-- Normalized-name invariant: every document's `nameNormalized` is the
lowercased form of its stored display name. -/
def nameNormInv (store : List City) : Prop :=
  ∀ c ∈ store, c.nameNormalized = toLowerCase c.name

/-- A document of the User collection (`IUser`). -/
structure User where
  id : Nat
  name : String
  email : String
  passwordHash : String
deriving DecidableEq, Repr

/-! ## Repositories (src/backend/src/repositories) -/

/-- `listCitiesForUser`: `CityModel.find({userId}).sort({createdAt: -1})`.
The store list is kept in insertion order, so descending `createdAt` is the
reverse of the filtered list. -/
def listCitiesForUser (store : List City) (uid : Nat) : List City :=
  (store.filter (fun c => c.userId = uid)).reverse

/-- `doc.save()` on the City model: the unique compound index makes the save
throw (E11000) when a document with the same (userId, nameNormalized, country)
already exists; otherwise the document is appended.  The schema option
`lowercase: true` lowercases `nameNormalized` on assignment. -/
def saveCity (store : List City) (c : City) : Except Unit (City × List City) :=
  let doc : City := { c with nameNormalized := toLowerCase c.nameNormalized }
  if store.any (fun d => cityKey d = cityKey doc) then
    .error ()
  else
    .ok (doc, store ++ [doc])

/-- `createCityForUser`: builds the document (isFavorite defaults to false)
and saves it. -/
def createCityForUser (store : List City) (freshId : Nat) (uid : Nat)
    (name nameNormalized : String) (country apiCityId : Option String) :
    Except Unit (City × List City) :=
  saveCity store
    { id := freshId, userId := uid, name := name,
      nameNormalized := nameNormalized, country := country,
      apiCityId := apiCityId, isFavorite := false }

/-- `findCityByIdForUser`: `findOne({_id, userId})`. -/
def findCityByIdForUser (store : List City) (cityId uid : Nat) : Option City :=
  store.find? (fun c => c.id = cityId ∧ c.userId = uid)

/-- `deleteCityForUser`: `deleteOne({_id, userId})` — removes the first (at
most one) document matching both the id and the owner. -/
def deleteCityForUser : List City → Nat → Nat → List City
  | [], _, _ => []
  | c :: rest, cityId, uid =>
    if c.id = cityId ∧ c.userId = uid then rest
    else c :: deleteCityForUser rest cityId uid

/-- `updateCityFavoriteForUser`: `findOneAndUpdate({_id, userId},
{isFavorite}, {new: true})` — updates the first matching document and returns
the updated document (or none). -/
def updateCityFavoriteForUser : List City → Nat → Nat → Bool →
    Option City × List City
  | [], _, _, _ => (none, [])
  | c :: rest, cityId, uid, fav =>
    if c.id = cityId ∧ c.userId = uid then
      let c' : City := { c with isFavorite := fav }
      (some c', c' :: rest)
    else
      let r := updateCityFavoriteForUser rest cityId uid fav
      (r.1, c :: r.2)

/-- `findUserByEmail`: `UserModel.findOne({email})`. -/
def findUserByEmail (users : List User) (email : String) : Option User :=
  users.find? (fun u => u.email = email)

/-! ## Geocoding service (src/backend/src/services/geo.service.ts) -/

/-- One entry of the OpenWeather geocoding response (`ResolvedLocation`).
`country` is typed `string` in the interface but the controller guards it with
optional chaining and truthiness, so it is modelled as `Option String`. -/
structure ResolvedLocation where
  name : String
  country : Option String
  lat : ℚ
  lon : ℚ
deriving DecidableEq, Repr

/-- `resolveExactCity`: filters the raw geocoding response (`raw` stands for
what `resolveCity` returned for this query) down to entries whose name is
truthy and equals the typed name exactly, case-insensitively after trimming. -/
def resolveExactCity (raw : List ResolvedLocation) (name : String) :
    List ResolvedLocation :=
  let target := toLowerCase (jsTrim name)
  raw.filter (fun item => item.name ≠ "" ∧ toLowerCase (jsTrim item.name) = target)

/-! ## Weather service (src/backend/src/services/weather.service.ts) -/

/-- The simplified weather shape returned by `fetchWeatherForCity`. -/
structure WeatherData where
  cityName : String
  country : Option String
  temperature : ℚ
  description : String
  icon : String
deriving DecidableEq, Repr

/-- The parts of an axios error that the controllers inspect:
`err.response.status`, `err.response.data.cod`, `err.response.data.message`. -/
structure WeatherErr where
  status : Option Nat
  cod : Option Nat
  message : Option String
deriving DecidableEq, Repr

/-- Outcome of one `fetchWeatherForCity` call. -/
abbrev WeatherOutcome := Except WeatherErr WeatherData

/-! ## City controller (src/backend/src/controllers/city.controller.ts) -/

/-- External calls a handler can issue, in order of issue. -/
inductive ExtCall where
  | geocode
  | weather
deriving DecidableEq, Repr

/-- The JSON city representation the controller sends back
(`{id, name, country, isFavorite}`). -/
structure CityJson where
  id : Nat
  name : String
  country : Option String
  isFavorite : Bool
deriving DecidableEq, Repr

/-- Result of the `createCity` handler: HTTP status, static message (error
responses), created-city JSON (201 responses), the store after the request,
and the external calls issued. -/
structure CreateResult where
  status : Nat
  message : Option String
  city? : Option CityJson
  store : List City
  calls : List ExtCall
deriving DecidableEq, Repr

/-- Is the country code exactly two ASCII letters (`/^[A-Za-z]{2}$/`)? -/
def isTwoAsciiLetters (s : String) : Prop :=
  s.length = 2 ∧ ∀ c ∈ s.data, c.isAlpha

instance (s : String) : Decidable (isTwoAsciiLetters s) := by
  unfold isTwoAsciiLetters; infer_instance

/-- The `m.country?.toUpperCase()` access used by the controller's filters. -/
def countryUpper (m : ResolvedLocation) : Option String :=
  m.country.map toUpperCase

/-- The payload country of the no-country-code branch:
`if (best.country) payload.country = best.country.toUpperCase()` — the field
stays absent when `best.country` is falsy. -/
def payloadCountry (m : ResolvedLocation) : Option String :=
  match m.country with
  | none => none
  | some c => if c = "" then none else some (toUpperCase c)

/-- The condition of the weather-validation catch block: the request is
aborted with 400 exactly when the error is 404-like
(`status === 404 || code === 404 || message === "city not found"`);
any other weather error falls out of the catch. -/
def weatherAborts (w : WeatherOutcome) : Prop :=
  match w with
  | .error e =>
    e.status = some 404 ∨ e.cod = some 404 ∨ e.message = some "city not found"
  | .ok _ => False

instance (w : WeatherOutcome) : Decidable (weatherAborts w) := by
  cases w <;> · unfold weatherAborts; infer_instance

/-- Shared tail of both `createCity` branches: the weather-validation
try/catch around `fetchWeatherForCity` (400 only on 404-like errors, any
other error falls through) followed by `createCityForUser` inside the inner
try whose catch maps a throw — in practice the duplicate-key error — to
400 "City already exists in your list". -/
def weatherAndSave (store : List City) (freshId uid : Nat)
    (pname pnorm : String) (pcountry : Option String)
    (weather : WeatherOutcome) : CreateResult :=
  if weatherAborts weather then
    { status := 400,
      message := some "We couldn't load weather for this city. It may not exist or be supported.",
      city? := none, store := store, calls := [.geocode, .weather] }
  else
    match createCityForUser store freshId uid pname pnorm pcountry none with
    | .error _ =>
      { status := 400, message := some "City already exists in your list",
        city? := none, store := store, calls := [.geocode, .weather] }
    | .ok (city, store') =>
      { status := 201, message := none,
        city? := some ⟨city.id, city.name, city.country, city.isFavorite⟩,
        store := store', calls := [.geocode, .weather] }

/-- The `createCity` handler.  `geo` is the raw list the OpenWeather geocoding
API would return for the query this request issues; `weather` is the outcome
of the weather-validation call; `freshId` is the ObjectId minted for a new
document. -/
def createCity (store : List City) (freshId : Nat) (user? : Option Nat)
    (name? country? : Option String) (geo : List ResolvedLocation)
    (weather : WeatherOutcome) : CreateResult :=
  match user? with
  | none =>
    { status := 401, message := some "Unauthorized", city? := none,
      store := store, calls := [] }
  | some uid =>
    match name? with
    | none =>
      { status := 400, message := some "City name is required", city? := none,
        store := store, calls := [] }
    | some nm =>
      if nm = "" ∨ jsTrim nm = "" then
        { status := 400, message := some "City name is required",
          city? := none, store := store, calls := [] }
      else
        let normalizedName := jsTrim nm
        let normalizedCountry : Option String :=
          match country? with
          | none => none
          | some c => if c = "" ∨ jsTrim c = "" then none else some (toUpperCase (jsTrim c))
        match normalizedCountry with
        | some cc =>
          if ¬ isTwoAsciiLetters cc then
            { status := 400,
              message := some "Country code must be a valid 2-letter ISO code",
              city? := none, store := store, calls := [] }
          else
            let exact := resolveExactCity geo normalizedName
            let inCountry := exact.filter (fun m => countryUpper m = some cc)
            match inCountry with
            | [] =>
              { status := 400,
                message := some "We couldn't find that city in the specified country. Please check the name and country code.",
                city? := none, store := store, calls := [.geocode] }
            | best :: _ =>
              weatherAndSave store freshId uid best.name (toLowerCase best.name)
                (countryUpper best) weather
        | none =>
          let exact := resolveExactCity geo normalizedName
          match exact with
          | [] =>
            { status := 400,
              message := some "We couldn't find that city. Please check the spelling.",
              city? := none, store := store, calls := [.geocode] }
          | best :: _ =>
            let distinctCountries :=
              ((exact.filterMap countryUpper).filter (fun s => s ≠ "")).dedup
            if distinctCountries.length > 1 then
              { status := 400,
                message := some "This city exists in multiple countries. Please provide a country code.",
                city? := none, store := store, calls := [.geocode] }
            else
              weatherAndSave store freshId uid best.name (toLowerCase best.name)
                (payloadCountry best) weather

/-- Result of the `deleteCity` handler. -/
structure DeleteResult where
  status : Nat
  message : Option String
  store : List City
deriving DecidableEq, Repr

/-- The `deleteCity` handler: awaits `deleteCityForUser` and replies 204
unconditionally. -/
def deleteCity (store : List City) (user? : Option Nat) (cityId : Nat) :
    DeleteResult :=
  match user? with
  | none => { status := 401, message := some "Unauthorized", store := store }
  | some uid =>
    { status := 204, message := none,
      store := deleteCityForUser store cityId uid }

/-- A JavaScript value as it matters for the `!!isFavorite` coercion in the
favorite handler (NaN is left out: `ℚ` has no NaN and no claim needs it). -/
inductive JsValue where
  | undefined
  | null
  | bool (b : Bool)
  | num (q : ℚ)
  | str (s : String)
deriving DecidableEq, Repr

/-- JavaScript truthiness; `!!v = truthy v`. -/
def truthy : JsValue → Bool
  | .undefined => false
  | .null => false
  | .bool b => b
  | .num q => q ≠ 0
  | .str s => s ≠ ""

/-- Result of the `toggleFavorite` handler. -/
structure ToggleResult where
  status : Nat
  message : Option String
  city? : Option CityJson
  store : List City
deriving DecidableEq, Repr

/-- The `toggleFavorite` handler: coerces the request body's `isFavorite`
field with `!!`, runs `updateCityFavoriteForUser` and replies 404 when no
document matched, otherwise the updated city JSON. -/
def toggleFavorite (store : List City) (user? : Option Nat) (cityId : Nat)
    (isFavoriteField : JsValue) : ToggleResult :=
  match user? with
  | none =>
    { status := 401, message := some "Unauthorized", city? := none,
      store := store }
  | some uid =>
    let r := updateCityFavoriteForUser store cityId uid (truthy isFavoriteField)
    match r.1 with
    | none =>
      { status := 404, message := some "City not found", city? := none,
        store := r.2 }
    | some c =>
      { status := 200, message := none,
        city? := some ⟨c.id, c.name, c.country, c.isFavorite⟩, store := r.2 }

/-! ## Auth service (src/backend/src/services/auth.service.ts) and
login endpoint (src/backend/src/controllers/auth.controller.ts) -/

/-- `bcrypt.compare`, abstracted: any function deciding whether a plaintext
password matches a stored hash. -/
abbrev HashCompare := String → String → Bool

/-- The payload signed into the JWT by `jwt.sign({userId}, secret)`. -/
structure AuthToken where
  userId : Nat
deriving DecidableEq, Repr

/-- `loginUser`: looks the user up by email and compares the password against
the stored hash, throwing INVALID_CREDENTIALS on either failure. -/
def loginUser (compare : HashCompare) (users : List User)
    (email password : String) : Except String (AuthToken × User) :=
  match findUserByEmail users email with
  | none => .error "INVALID_CREDENTIALS"
  | some u =>
    if compare password u.passwordHash then .ok (⟨u.id⟩, u)
    else .error "INVALID_CREDENTIALS"

/-- Result of the `login` endpoint. -/
structure LoginResult where
  status : Nat
  message : Option String
  token? : Option AuthToken
deriving DecidableEq, Repr

/-- The `login` handler: 400 on missing/empty email or password, 401 on
INVALID_CREDENTIALS, 200 with the token otherwise. -/
def login (compare : HashCompare) (users : List User)
    (email? password? : Option String) : LoginResult :=
  match email?, password? with
  | none, _ =>
    { status := 400, message := some "email and password are required",
      token? := none }
  | _, none =>
    { status := 400, message := some "email and password are required",
      token? := none }
  | some e, some p =>
    if e = "" ∨ p = "" then
      { status := 400, message := some "email and password are required",
        token? := none }
    else
      match loginUser compare users e p with
      | .error m =>
        if m = "INVALID_CREDENTIALS" then
          { status := 401, message := some "Invalid email or password",
            token? := none }
        else
          { status := 500, message := some "Internal server error",
            token? := none }
      | .ok (t, _) => { status := 200, message := none, token? := some t }

/-! ## AI service (src/backend/src/services/ai.service.ts)

The heuristic fallback matches each line against the regular expression
`/City: (.*?)(?: \((.*?)\))? \| (-?\d+(?:\.\d+)?)°C/`.  The matcher below
implements exactly this pattern's backtracking semantics on lists of
characters: leftmost starting position, lazy `(.*?)` groups enumerated from
the shortest split, the optional `(?: ...)?` group attempted before being
skipped.  The numeric group is parsed by maximal munch, which coincides with
the regex's backtracking here because a shorter digit run always leaves a
digit where `.` or `°` is required. -/

/-- Drop a literal pattern from the front of the input, or fail. -/
def dropLit : List Char → List Char → Option (List Char)
  | [], l => some l
  | _ :: _, [] => none
  | p :: ps, c :: cs => if c = p then dropLit ps cs else none

/-- All ways to split a list into a prefixed part and the rest, shortest
first: the enumeration order of a lazy `(.*?)` group. -/
def splits : List Char → List (List Char × List Char)
  | [] => [([], [])]
  | c :: cs => ([], c :: cs) :: (splits cs).map (fun p => (c :: p.1, p.2))

/-- Longest run of ASCII digits at the front of the list. -/
def takeDigits : List Char → List Char × List Char
  | [] => ([], [])
  | c :: cs =>
    if c.isDigit then
      let r := takeDigits cs
      (c :: r.1, r.2)
    else ([], c :: cs)

/-- Match the capture group `(-?\d+(?:\.\d+)?)`; returns the matched text and
the remaining input. -/
def matchTemp (l : List Char) : Option (List Char × List Char) :=
  let signed : List Char × List Char :=
    match l with
    | '-' :: cs => (['-'], cs)
    | _ => ([], l)
  let d1 := takeDigits signed.2
  if d1.1 = [] then none
  else
    match d1.2 with
    | '.' :: l3 =>
      let d2 := takeDigits l3
      if d2.1 = [] then some (signed.1 ++ d1.1, d1.2)
      else some (signed.1 ++ d1.1 ++ '.' :: d2.1, d2.2)
    | _ => some (signed.1 ++ d1.1, d1.2)

/-- Match ` \| (-?\d+(?:\.\d+)?)°C`; returns the temperature capture. -/
def matchTail (l : List Char) : Option (List Char) := do
  let l1 ← dropLit [' ', '|', ' '] l
  let (temp, l2) ← matchTemp l1
  let _ ← dropLit ['°', 'C'] l2
  pure temp

/-- Match `(?: \((.*?)\))? \| ...` after the first capture group: try the
optional parenthesised group (lazy inner capture) first, fall back to the
bare tail. -/
def matchAfterCity (l : List Char) : Option (List Char) :=
  let withGroup : Option (List Char) :=
    match dropLit [' ', '('] l with
    | none => none
    | some l1 =>
      (splits l1).findSome? (fun g2 =>
        match dropLit [')'] g2.2 with
        | none => none
        | some l2 => matchTail l2)
  match withGroup with
  | some t => some t
  | none => matchTail l

/-- Match the whole pattern anchored at the current position; returns the
first capture (city) and third capture (temperature). -/
def matchFromCityKw (l : List Char) : Option (List Char × List Char) :=
  match dropLit ['C', 'i', 't', 'y', ':', ' '] l with
  | none => none
  | some l1 =>
    (splits l1).findSome? (fun g1 =>
      (matchAfterCity g1.2).map (fun t => (g1.1, t)))

/-- `line.match(re)`: try the pattern at each starting position, leftmost
first. -/
def findCityMatch : List Char → Option (List Char × List Char)
  | [] => none
  | c :: cs =>
    match matchFromCityKw (c :: cs) with
    | some r => some r
    | none => findCityMatch cs

/-- Value of a digit list read in base 10. -/
def digitsToNat (l : List Char) : Nat :=
  l.foldl (fun acc c => acc * 10 + (c.toNat - '0'.toNat)) 0

/-- `parseFloat` on a `-?\d+(\.\d+)?` match, as an exact rational. -/
def parseTemp (l : List Char) : ℚ :=
  let signed : Bool × List Char :=
    match l with
    | '-' :: cs => (true, cs)
    | _ => (false, l)
  let d1 := takeDigits signed.2
  let intPart : ℚ := digitsToNat d1.1
  let q : ℚ :=
    match d1.2 with
    | '.' :: l3 =>
      let d2 := takeDigits l3
      intPart + (digitsToNat d2.1 : ℚ) / (10 ^ d2.1.length)
    | _ => intPart
  if signed.1 then -q else q

/-- One parsed `{city, temp}` entry of the heuristic. -/
structure TempEntry where
  city : String
  temp : ℚ
deriving DecidableEq, Repr

/-- Parse one (already trimmed, non-empty) line of the weather summary.  The
loop body skips lines with no regex match and lines whose first capture is
falsy (the empty string); `parseFloat` on the matched shape is never NaN. -/
def parseLine (line : String) : Option TempEntry :=
  match findCityMatch line.data with
  | none => none
  | some r =>
    if r.1 = [] then none
    else some ⟨jsTrim (String.mk r.1), parseTemp r.2⟩

/-- `weatherSummary.split("\n").map(trim).filter(nonempty)`. -/
def nonEmptyLines (s : String) : List String :=
  ((splitOnChar '\n' s.data).map (fun l => jsTrim (String.mk l))).filter (fun l => l ≠ "")

/-- All parsed temperature entries of a weather summary. -/
def parseTemps (weatherSummary : String) : List TempEntry :=
  (nonEmptyLines weatherSummary).filterMap parseLine

/-- `[...temps].sort((a, b) => a.temp - b.temp)`: a stable ascending sort,
modelled by insertion placing each element after its equals. -/
def insertTemp (x : TempEntry) : List TempEntry → List TempEntry
  | [] => [x]
  | y :: ys => if x.temp < y.temp then x :: y :: ys else y :: insertTemp x ys

/-- Stable insertion sort by ascending temperature. -/
def sortTemps : List TempEntry → List TempEntry
  | [] => []
  | x :: xs => insertTemp x (sortTemps xs)

/-- `sorted.reduce((acc, t) => acc + t.temp, 0)`. -/
def sumTemps (l : List TempEntry) : ℚ :=
  (l.map (fun t => t.temp)).sum

/-- `x.toFixed(1)` for the exact decimals occurring here: round half away
from zero to one decimal place.  Computed on the numerator and denominator
directly: `(|num| * 20 + den) / (2 * den)` is `⌊|q| * 10 + 1/2⌋`. -/
def toFixed1 (q : ℚ) : String :=
  let a : Nat := (q.num.natAbs * 20 + q.den) / (2 * q.den)
  (if q < 0 then "-" else "") ++ toString (a / 10) ++ "." ++ toString (a % 10)

/-- `AiInsightResponse`. -/
structure AiInsightResponse where
  answer : String
  usedFallback : Bool
deriving DecidableEq, Repr

/-- `heuristicFallback`: parses `City: ... | N°C` temperature lines and
summarises coldest / warmest / average over them. -/
def heuristicFallback (_question weatherSummary : String) : AiInsightResponse :=
  let lines := nonEmptyLines weatherSummary
  if lines = [] then
    { answer := "I don't have any weather data yet. Add cities and load their weather, then try asking for insights again.",
      usedFallback := true }
  else
    let temps := lines.filterMap parseLine
    let sorted := sortTemps temps
    let base := "Here is a quick heuristic summary based on your cities:"
    let summary :=
      match sorted.head?, sorted.getLast? with
      | some coldest, some warmest =>
        let avg := sumTemps sorted / sorted.length
        base ++
        "\n- Coldest city: " ++ coldest.city ++ " at " ++
          toFixed1 coldest.temp ++ "°C." ++
        "\n- Warmest city: " ++ warmest.city ++ " at " ++
          toFixed1 warmest.temp ++ "°C." ++
        "\n- Average temperature across your cities: " ++ toFixed1 avg ++ "°C."
      | _, _ => base
    { answer := summary ++ "\n\nAI provider is not configured or not reachable, so this is a simple heuristic summary instead of a full AI answer.",
      usedFallback := true }

/-- `getAiInsight`.  `apiKey` is the GEMINI_API_KEY environment value (a
missing or empty key is falsy); `callResult` is the outcome of the external
generative call, its payload the concatenated candidate text. -/
def getAiInsight (apiKey : Option String) (callResult : Except Unit String)
    (question weatherSummary : String) : AiInsightResponse :=
  match apiKey with
  | none => heuristicFallback question weatherSummary
  | some k =>
    if k = "" then heuristicFallback question weatherSummary
    else
      match callResult with
      | .error _ => heuristicFallback question weatherSummary
      | .ok text =>
        let t := jsTrim text
        { answer := if t = "" then "I couldn't generate insights right now." else t,
          usedFallback := false }

/-! ## AI insights controller (src/unnamed ai.controller, `getInsights`) -/

/-- The weather summary line
``City: ${name}${country ? ` (${country})` : ""} | ${temp.toFixed(1)}°C, ${description}``. -/
def weatherLine (w : WeatherData) : String :=
  "City: " ++ w.cityName ++
  (match w.country with
   | some c => if c = "" then "" else " (" ++ c ++ ")"
   | none => "") ++
  " | " ++ toFixed1 w.temperature ++ "°C, " ++ w.description

/-- Result of the `getInsights` handler.  `weatherSummary` records the
summary string the handler built (what it passed to the AI service). -/
structure InsightResult where
  status : Nat
  message : Option String
  answer : Option String
  usedFallback : Option Bool
  weatherSummary : Option String
deriving DecidableEq, Repr

/-- The `getInsights` handler.  `weatherFor` gives the outcome of the
per-city `fetchWeatherForCity` call; the loop catches a failed fetch and
skips that city. -/
def getInsights (store : List City) (user? : Option Nat)
    (question? : Option String) (weatherFor : City → WeatherOutcome)
    (apiKey : Option String) (aiCall : Except Unit String) : InsightResult :=
  match user? with
  | none =>
    { status := 401, message := some "Unauthorized", answer := none,
      usedFallback := none, weatherSummary := none }
  | some uid =>
    match question? with
    | none =>
      { status := 400, message := some "Question is required", answer := none,
        usedFallback := none, weatherSummary := none }
    | some q =>
      if q = "" ∨ jsTrim q = "" then
        { status := 400, message := some "Question is required",
          answer := none, usedFallback := none, weatherSummary := none }
      else
        let cities := listCitiesForUser store uid
        if cities = [] then
          { status := 400,
            message := some "You don't have any cities yet. Add some cities first.",
            answer := none, usedFallback := none, weatherSummary := none }
        else
          let lines := cities.filterMap (fun c =>
            match weatherFor c with
            | .ok w => some (weatherLine w)
            | .error _ => none)
          let weatherSummary := joinLines lines
          let ai := getAiInsight apiKey aiCall (jsTrim q) weatherSummary
          { status := 200, message := none, answer := some ai.answer,
            usedFallback := some ai.usedFallback,
            weatherSummary := some weatherSummary }

/-! ## Basic lemmas -/

theorem toNat_ofNat_of_lt {n : Nat} (h : n < 0xd800) : (Char.ofNat n).toNat = n := by
  have hv : n.isValidChar := Or.inl h
  rw [Char.ofNat, dif_pos hv]
  simp [Char.ofNatAux, Char.toNat, UInt32.toNat]

theorem char_toLower_idem (c : Char) : c.toLower.toLower = c.toLower := by
  by_cases h : c.toNat ≥ 65 ∧ c.toNat ≤ 90
  · have e1 : c.toLower = Char.ofNat (c.toNat + 32) := by
      unfold Char.toLower
      rw [if_pos h]
    have h32 : (Char.ofNat (c.toNat + 32)).toNat = c.toNat + 32 :=
      toNat_ofNat_of_lt (by omega)
    rw [e1]
    unfold Char.toLower
    rw [if_neg]
    rw [h32]
    omega
  · have e1 : c.toLower = c := by
      unfold Char.toLower
      rw [if_neg h]
    rw [e1, e1]

theorem toLowerCase_idem (s : String) : toLowerCase (toLowerCase s) = toLowerCase s := by
  unfold toLowerCase
  refine congrArg String.mk ?_
  show (s.data.map Char.toLower).map Char.toLower = s.data.map Char.toLower
  rw [List.map_map]
  exact List.map_congr_left (fun c _ => char_toLower_idem c)

theorem updateCityFavoriteForUser_no_match (store : List City) (cityId uid : Nat)
    (fav : Bool) (h : ∀ d ∈ store, ¬(d.id = cityId ∧ d.userId = uid)) :
    updateCityFavoriteForUser store cityId uid fav = (none, store) := by
  induction store with
  | nil => rfl
  | cons c rest ih =>
    have hc := h c (by simp)
    have hrest : ∀ d ∈ rest, ¬(d.id = cityId ∧ d.userId = uid) :=
      fun d hd => h d (by simp [hd])
    simp only [updateCityFavoriteForUser, if_neg hc, ih hrest]

theorem updateCityFavoriteForUser_found (store : List City) (cityId uid : Nat)
    (fav : Bool) (c : City)
    (h : (updateCityFavoriteForUser store cityId uid fav).1 = some c) :
    c.isFavorite = fav ∧ c.id = cityId ∧ c.userId = uid := by
  induction store with
  | nil => simp [updateCityFavoriteForUser] at h
  | cons d rest ih =>
    by_cases hd : d.id = cityId ∧ d.userId = uid
    · simp only [updateCityFavoriteForUser, if_pos hd] at h
      cases h
      exact ⟨rfl, hd⟩
    · simp only [updateCityFavoriteForUser, if_neg hd] at h
      exact ih h

theorem deleteCityForUser_no_match (store : List City) (cityId uid : Nat)
    (h : ∀ d ∈ store, ¬(d.id = cityId ∧ d.userId = uid)) :
    deleteCityForUser store cityId uid = store := by
  induction store with
  | nil => rfl
  | cons c rest ih =>
    have hc := h c (by simp)
    have hrest : ∀ d ∈ rest, ¬(d.id = cityId ∧ d.userId = uid) :=
      fun d hd => h d (by simp [hd])
    simp only [deleteCityForUser, if_neg hc, ih hrest]

theorem saveCity_preserves_unique {store : List City} {c d : City}
    {store' : List City} (hinv : uniqueIndexOk store)
    (h : saveCity store c = .ok (d, store')) : uniqueIndexOk store' := by
  simp only [saveCity] at h
  split at h
  · exact absurd h (by simp)
  · rename_i hany
    injection h with h'
    injection h' with hd hs
    subst hs
    refine List.pairwise_append.mpr ⟨hinv, List.pairwise_singleton _ _, ?_⟩
    intro x hx y hy
    simp only [List.mem_singleton] at hy
    subst hy
    simp only [List.any_eq_true, decide_eq_true_eq, not_exists, not_and] at hany
    exact fun hk => (hany x hx) hk

theorem saveCity_fresh_key {store : List City} {c d : City}
    {store' : List City} (h : saveCity store c = .ok (d, store')) :
    store' = store ++ [d] ∧
    d = { c with nameNormalized := toLowerCase c.nameNormalized } ∧
    ∀ x ∈ store, cityKey x ≠ cityKey d := by
  simp only [saveCity] at h
  split at h
  · exact absurd h (by simp)
  · rename_i hany
    injection h with h'
    injection h' with hd hs
    subst hs hd
    simp only [List.any_eq_true, decide_eq_true_eq, not_exists, not_and] at hany
    exact ⟨rfl, rfl, hany⟩

theorem saveCity_dup (store : List City) (c : City)
    (h : ∃ d ∈ store, cityKey d = (c.userId, toLowerCase c.nameNormalized, c.country)) :
    saveCity store c = .error () := by
  simp only [saveCity]
  rw [if_pos]
  simp only [List.any_eq_true, decide_eq_true_eq]
  obtain ⟨d, hd, hk⟩ := h
  exact ⟨d, hd, hk⟩

/-- The document built by the shared save tail. -/
theorem weatherAndSave_result (store : List City) (freshId uid : Nat)
    (pname pnorm : String) (pcountry : Option String)
    (weather : WeatherOutcome) :
    ((weatherAndSave store freshId uid pname pnorm pcountry weather).store = store ∧
     (weatherAndSave store freshId uid pname pnorm pcountry weather).status ≠ 201) ∨
    ((weatherAndSave store freshId uid pname pnorm pcountry weather).status = 201 ∧
     (weatherAndSave store freshId uid pname pnorm pcountry weather).store =
       store ++ [⟨freshId, uid, pname, toLowerCase pnorm, pcountry, none, false⟩] ∧
     (∀ x ∈ store,
        cityKey x ≠ cityKey ⟨freshId, uid, pname, toLowerCase pnorm, pcountry, none, false⟩)) := by
  unfold weatherAndSave
  split
  · left
    constructor
    · rfl
    · simp
  · rcases hsave : createCityForUser store freshId uid pname pnorm pcountry none with e | p
    · left
      exact ⟨rfl, by simp⟩
    · obtain ⟨city, store'⟩ := p
      obtain ⟨hs, hd, hfresh⟩ := saveCity_fresh_key hsave
      right
      refine ⟨rfl, ?_, ?_⟩
      · show store' = _
        rw [hs, hd]
      · rw [hd] at hfresh
        exact hfresh

theorem weatherAndSave_preserves_unique (store : List City) (freshId uid : Nat)
    (pname pnorm : String) (pcountry : Option String)
    (weather : WeatherOutcome) (hinv : uniqueIndexOk store) :
    uniqueIndexOk (weatherAndSave store freshId uid pname pnorm pcountry weather).store := by
  rcases weatherAndSave_result store freshId uid pname pnorm pcountry weather with
    ⟨hs, _⟩ | ⟨_, hs, hfresh⟩
  · rw [hs]; exact hinv
  · rw [hs]
    refine List.pairwise_append.mpr ⟨hinv, List.pairwise_singleton _ _, ?_⟩
    intro x hx y hy
    simp only [List.mem_singleton] at hy
    subst hy
    exact hfresh x hx

theorem weatherAndSave_dup (store : List City) (freshId uid : Nat)
    (pname pnorm : String) (pcountry : Option String)
    (weather : WeatherOutcome) (hw : ¬ weatherAborts weather)
    (hdup : ∃ d ∈ store, cityKey d = (uid, toLowerCase pnorm, pcountry)) :
    weatherAndSave store freshId uid pname pnorm pcountry weather =
      { status := 400, message := some "City already exists in your list",
        city? := none, store := store, calls := [.geocode, .weather] } := by
  unfold weatherAndSave
  rw [if_neg hw]
  simp only [createCityForUser]
  rw [saveCity_dup store ⟨freshId, uid, pname, pnorm, pcountry, none, false⟩ hdup]

theorem weatherAndSave_norm_result (store : List City) (freshId uid : Nat)
    (pname : String) (pcountry : Option String) (weather : WeatherOutcome) :
    ((weatherAndSave store freshId uid pname (toLowerCase pname) pcountry weather).store = store ∧
     (weatherAndSave store freshId uid pname (toLowerCase pname) pcountry weather).status ≠ 201) ∨
    ((weatherAndSave store freshId uid pname (toLowerCase pname) pcountry weather).status = 201 ∧
     ∃ d : City,
       (weatherAndSave store freshId uid pname (toLowerCase pname) pcountry weather).store =
         store ++ [d] ∧
       d.nameNormalized = toLowerCase d.name ∧
       (∀ x ∈ store, cityKey x ≠ cityKey d)) := by
  rcases weatherAndSave_result store freshId uid pname (toLowerCase pname)
      pcountry weather with ⟨hs, hn⟩ | ⟨h2, hs, hf⟩
  · exact Or.inl ⟨hs, hn⟩
  · refine Or.inr ⟨h2, ⟨freshId, uid, pname, toLowerCase (toLowerCase pname),
      pcountry, none, false⟩, hs, ?_, hf⟩
    show toLowerCase (toLowerCase pname) = toLowerCase pname
    exact toLowerCase_idem pname

/-- Every `createCity` outcome: either the request ends without 201 and the
collection is untouched, or it ends 201 and exactly one new document was
appended, carrying a lowercased normalized name and a compound key fresh in
the collection. -/
theorem createCity_result (store : List City) (freshId : Nat)
    (user? : Option Nat) (name? country? : Option String)
    (geo : List ResolvedLocation) (weather : WeatherOutcome) :
    ((createCity store freshId user? name? country? geo weather).store = store ∧
     (createCity store freshId user? name? country? geo weather).status ≠ 201) ∨
    ((createCity store freshId user? name? country? geo weather).status = 201 ∧
     ∃ d : City,
       (createCity store freshId user? name? country? geo weather).store =
         store ++ [d] ∧
       d.nameNormalized = toLowerCase d.name ∧
       (∀ x ∈ store, cityKey x ≠ cityKey d)) := by
  rcases user? with _ | uid
  · simp only [createCity]; left; exact ⟨by simp, by simp⟩
  rcases name? with _ | nm
  · simp only [createCity]; left; exact ⟨by simp, by simp⟩
  by_cases hnm : nm = "" ∨ jsTrim nm = ""
  · simp only [createCity, if_pos hnm]; left; exact ⟨by simp, by simp⟩
  have noCC : ((createCity store freshId (some uid) (some nm) none geo weather).store = store ∧
      (createCity store freshId (some uid) (some nm) none geo weather).status ≠ 201) ∨
      ((createCity store freshId (some uid) (some nm) none geo weather).status = 201 ∧
       ∃ d : City,
         (createCity store freshId (some uid) (some nm) none geo weather).store = store ++ [d] ∧
         d.nameNormalized = toLowerCase d.name ∧
         (∀ x ∈ store, cityKey x ≠ cityKey d)) := by
    simp only [createCity, if_neg hnm]
    rcases hexact : resolveExactCity geo (jsTrim nm) with _ | ⟨best, rest⟩
    · simp only [hexact]; left; exact ⟨by simp, by simp⟩
    · simp only [hexact]
      by_cases hdist :
          (((best :: rest).filterMap countryUpper).filter (fun s => s ≠ "")).dedup.length > 1
      · rw [if_pos hdist]; left; exact ⟨by simp, by simp⟩
      · rw [if_neg hdist]
        exact weatherAndSave_norm_result store freshId uid best.name
          (payloadCountry best) weather
  rcases country? with _ | c
  · exact noCC
  by_cases hc : c = "" ∨ jsTrim c = ""
  · have : createCity store freshId (some uid) (some nm) (some c) geo weather =
        createCity store freshId (some uid) (some nm) none geo weather := by
      simp only [createCity, if_neg hnm, if_pos hc]
    rw [this]
    exact noCC
  simp only [createCity, if_neg hnm, if_neg hc]
  by_cases hcc : isTwoAsciiLetters (toUpperCase (jsTrim c))
  · rw [if_neg (not_not_intro hcc)]
    rcases hin : (resolveExactCity geo (jsTrim nm)).filter
        (fun m => countryUpper m = some (toUpperCase (jsTrim c))) with _ | ⟨best, rest⟩
    · simp only [hin]; left; exact ⟨by simp, by simp⟩
    · simp only [hin]
      exact weatherAndSave_norm_result store freshId uid best.name
        (countryUpper best) weather
  · rw [if_pos hcc]; left; exact ⟨by simp, by simp⟩

/-- On the no-country-code happy path (typed name valid, at least one exact
match, not ambiguous) `createCity` reduces to the shared weather-validation
and save tail. -/
theorem createCity_noCountry_eq (store : List City) (freshId uid : Nat)
    (nm : String) (geo : List ResolvedLocation) (weather : WeatherOutcome)
    (best : ResolvedLocation) (rest : List ResolvedLocation)
    (hnm : ¬(nm = "" ∨ jsTrim nm = ""))
    (hexact : resolveExactCity geo (jsTrim nm) = best :: rest)
    (hdist : ¬ ((((best :: rest).filterMap countryUpper).filter
        (fun s => s ≠ "")).dedup.length > 1)) :
    createCity store freshId (some uid) (some nm) none geo weather =
      weatherAndSave store freshId uid best.name (toLowerCase best.name)
        (payloadCountry best) weather := by
  simp only [createCity, if_neg hnm, hexact]
  rw [if_neg hdist]

/-! ## C1: the unique compound (owner, normalized name, country) index -/

/-- C1: no two saved city documents share an (owner, normalized name,
country) triple.  (i) Every `createCity` request preserves the unique
compound index invariant of the City collection.  (ii) A request that
resolves (no-country branch: valid typed name, at least one exact geocoding
match, unambiguous, weather validation passing) and whose resolved
(owner, lowercased canonical name, country) triple already exists in the
collection is rejected with 400 "City already exists in your list" and
creates no second document. -/
theorem city_unique_compound_index (store : List City) (freshId : Nat)
    (user? : Option Nat) (name? country? : Option String)
    (geo : List ResolvedLocation) (weather : WeatherOutcome) :
    (uniqueIndexOk store →
      uniqueIndexOk (createCity store freshId user? name? country? geo weather).store) ∧
    (∀ uid nm best rest,
      ¬(nm = "" ∨ jsTrim nm = "") →
      resolveExactCity geo (jsTrim nm) = best :: rest →
      ¬ ((((best :: rest).filterMap countryUpper).filter
          (fun s => s ≠ "")).dedup.length > 1) →
      ¬ weatherAborts weather →
      (∃ d ∈ store, cityKey d = (uid, toLowerCase best.name, payloadCountry best)) →
      createCity store freshId (some uid) (some nm) none geo weather =
        { status := 400, message := some "City already exists in your list",
          city? := none, store := store, calls := [.geocode, .weather] }) := by
  constructor
  · intro hinv
    rcases createCity_result store freshId user? name? country? geo weather with
      ⟨hs, _⟩ | ⟨_, d, hs, _, hf⟩
    · rw [hs]; exact hinv
    · rw [hs]
      refine List.pairwise_append.mpr ⟨hinv, List.pairwise_singleton _ _, ?_⟩
      intro x hx y hy
      simp only [List.mem_singleton] at hy
      subst hy
      exact hf x hx
  · intro uid nm best rest hnm hexact hdist hw hdup
    rw [createCity_noCountry_eq store freshId uid nm geo weather best rest
      hnm hexact hdist]
    refine weatherAndSave_dup store freshId uid best.name (toLowerCase best.name)
      (payloadCountry best) weather hw ?_
    rw [toLowerCase_idem]
    exact hdup

theorem city_unique_compound_index_witness :
    createCity [⟨1, 7, "Paris", "paris", some "FR", none, false⟩] 2 (some 7)
        (some "Paris") none [⟨"Paris", some "FR", 0, 0⟩]
        (.ok ⟨"Paris", some "FR", 10, "clear", "01d"⟩) =
      { status := 400, message := some "City already exists in your list",
        city? := none,
        store := [⟨1, 7, "Paris", "paris", some "FR", none, false⟩],
        calls := [.geocode, .weather] } ∧
    uniqueIndexOk (createCity [] 1 none none none [] (.error ⟨none, none, none⟩)).store := by
  constructor
  · exact (city_unique_compound_index
        [⟨1, 7, "Paris", "paris", some "FR", none, false⟩] 2 (some 7)
        (some "Paris") none [⟨"Paris", some "FR", 0, 0⟩]
        (.ok ⟨"Paris", some "FR", 10, "clear", "01d"⟩)).2 7 "Paris"
      ⟨"Paris", some "FR", 0, 0⟩ [] (by decide) (by rfl) (by decide) (by decide)
      (by decide)
  · exact (city_unique_compound_index [] 1 none none none []
      (.error ⟨none, none, none⟩)).1 (List.Pairwise.nil)

/-! ## C2: exact-match geocoding validation in createCity -/

/-- C2: `resolveExactCity` keeps exactly the geocoding entries whose truthy
name equals the typed name case-insensitively after trimming, and the
no-country `createCity` path replies 400 on zero exact matches, 400 on exact
matches spanning more than one distinct country, and mutates the collection
only when it replies 201. -/
theorem createCity_exact_match_validation (store : List City) (freshId : Nat)
    (geo : List ResolvedLocation) (weather : WeatherOutcome) :
    (∀ (raw : List ResolvedLocation) (n : String) (item : ResolvedLocation),
      item ∈ resolveExactCity raw n ↔
        item ∈ raw ∧ item.name ≠ "" ∧
          toLowerCase (jsTrim item.name) = toLowerCase (jsTrim n)) ∧
    (∀ uid nm, ¬(nm = "" ∨ jsTrim nm = "") →
      resolveExactCity geo (jsTrim nm) = [] →
      createCity store freshId (some uid) (some nm) none geo weather =
        { status := 400,
          message := some "We couldn't find that city. Please check the spelling.",
          city? := none, store := store, calls := [.geocode] }) ∧
    (∀ uid nm best rest, ¬(nm = "" ∨ jsTrim nm = "") →
      resolveExactCity geo (jsTrim nm) = best :: rest →
      (((best :: rest).filterMap countryUpper).filter
          (fun s => s ≠ "")).dedup.length > 1 →
      createCity store freshId (some uid) (some nm) none geo weather =
        { status := 400,
          message := some "This city exists in multiple countries. Please provide a country code.",
          city? := none, store := store, calls := [.geocode] }) ∧
    (∀ uid nm c, ¬(nm = "" ∨ jsTrim nm = "") → ¬(c = "" ∨ jsTrim c = "") →
      isTwoAsciiLetters (toUpperCase (jsTrim c)) →
      (resolveExactCity geo (jsTrim nm)).filter
          (fun m => countryUpper m = some (toUpperCase (jsTrim c))) = [] →
      createCity store freshId (some uid) (some nm) (some c) geo weather =
        { status := 400,
          message := some "We couldn't find that city in the specified country. Please check the name and country code.",
          city? := none, store := store, calls := [.geocode] }) ∧
    (∀ (user? : Option Nat) (name? country? : Option String),
      (createCity store freshId user? name? country? geo weather).store ≠ store →
      (createCity store freshId user? name? country? geo weather).status = 201) := by
  refine ⟨?_, ?_, ?_, ?_, ?_⟩
  · intro raw n item
    simp only [resolveExactCity, List.mem_filter, decide_eq_true_eq]
  · intro uid nm hnm hexact
    simp only [createCity, if_neg hnm, hexact]
  · intro uid nm best rest hnm hexact hdist
    simp only [createCity, if_neg hnm, hexact]
    rw [if_pos hdist]
  · intro uid nm c hnm hc hcc hin
    simp only [createCity, if_neg hnm, if_neg hc]
    rw [if_neg (not_not_intro hcc)]
    simp only [hin]
  · intro u? n? c? hs
    rcases createCity_result store freshId u? n? c? geo weather with
      ⟨heq, _⟩ | ⟨h201, _⟩
    · exact absurd heq hs
    · exact h201

theorem createCity_exact_match_validation_witness :
    createCity [] 1 (some 7) (some "Paris") none
        [⟨"Paris", some "FR", 0, 0⟩, ⟨"Paris", some "US", 0, 0⟩]
        (.ok ⟨"Paris", some "FR", 10, "clear", "01d"⟩) =
      { status := 400,
        message := some "This city exists in multiple countries. Please provide a country code.",
        city? := none, store := [], calls := [.geocode] } ∧
    createCity [] 1 (some 7) (some "Atlantis") none []
        (.ok ⟨"Paris", some "FR", 10, "clear", "01d"⟩) =
      { status := 400,
        message := some "We couldn't find that city. Please check the spelling.",
        city? := none, store := [], calls := [.geocode] } ∧
    (⟨"Paris", some "FR", 0, 0⟩ : ResolvedLocation) ∈
      resolveExactCity [⟨"Paris", some "FR", 0, 0⟩] " paris " := by
  refine ⟨?_, ?_, ?_⟩
  · exact (createCity_exact_match_validation [] 1
        [⟨"Paris", some "FR", 0, 0⟩, ⟨"Paris", some "US", 0, 0⟩]
        (.ok ⟨"Paris", some "FR", 10, "clear", "01d"⟩)).2.2.1 7 "Paris"
      ⟨"Paris", some "FR", 0, 0⟩ [⟨"Paris", some "US", 0, 0⟩] (by decide)
      (by rfl) (by decide)
  · exact (createCity_exact_match_validation [] 1 []
        (.ok ⟨"Paris", some "FR", 10, "clear", "01d"⟩)).2.1 7 "Atlantis"
      (by decide) (by rfl)
  · exact ((createCity_exact_match_validation [] 1 []
        (.ok ⟨"Paris", some "FR", 10, "clear", "01d"⟩)).1
      [⟨"Paris", some "FR", 0, 0⟩] " paris " ⟨"Paris", some "FR", 0, 0⟩).mpr
      (by refine ⟨by simp, by decide, by rfl⟩)

/-! ## C3: malformed country codes are rejected before any external call -/

/-- C3: for every authenticated `createCity` request whose country field is
non-empty after trimming and, uppercased, is not exactly two ASCII letters,
the handler replies 400 with a static message, issues no geocoding or
weather call, and creates no document; with a valid typed name the response
is exactly the static country-code message. -/
theorem malformed_country_rejected_before_external_call (store : List City)
    (freshId uid : Nat) (name? : Option String) (c : String)
    (geo : List ResolvedLocation) (weather : WeatherOutcome)
    (hc : ¬(c = "" ∨ jsTrim c = ""))
    (hbad : ¬ isTwoAsciiLetters (toUpperCase (jsTrim c))) :
    (createCity store freshId (some uid) name? (some c) geo weather).status = 400 ∧
    (createCity store freshId (some uid) name? (some c) geo weather).calls = [] ∧
    (createCity store freshId (some uid) name? (some c) geo weather).store = store ∧
    (∀ nm, name? = some nm → ¬(nm = "" ∨ jsTrim nm = "") →
      createCity store freshId (some uid) name? (some c) geo weather =
        { status := 400,
          message := some "Country code must be a valid 2-letter ISO code",
          city? := none, store := store, calls := [] }) := by
  have hmain : ∀ nm, ¬(nm = "" ∨ jsTrim nm = "") →
      createCity store freshId (some uid) (some nm) (some c) geo weather =
        { status := 400,
          message := some "Country code must be a valid 2-letter ISO code",
          city? := none, store := store, calls := [] } := by
    intro nm hnm
    simp only [createCity, if_neg hnm, if_neg hc]
    rw [if_pos hbad]
  rcases name? with _ | nm
  · exact ⟨rfl, rfl, rfl, by intro nm h; cases h⟩
  · by_cases hnm : nm = "" ∨ jsTrim nm = ""
    · refine ⟨?_, ?_, ?_, ?_⟩
      · simp only [createCity, if_pos hnm]
      · simp only [createCity, if_pos hnm]
      · simp only [createCity, if_pos hnm]
      · intro nm' heq hnm'
        injection heq with heq'
        subst heq'
        exact absurd hnm hnm'
    · rw [hmain nm hnm]
      exact ⟨rfl, rfl, rfl, fun _ _ _ => rfl⟩

theorem malformed_country_rejected_witness :
    createCity [] 9 (some 7) (some "Paris") (some "usa")
        [⟨"Paris", some "FR", 0, 0⟩]
        (.ok ⟨"Paris", some "FR", 10, "clear", "01d"⟩) =
      { status := 400,
        message := some "Country code must be a valid 2-letter ISO code",
        city? := none, store := [], calls := [] } :=
  (malformed_country_rejected_before_external_call [] 9 7 (some "Paris") "usa"
      [⟨"Paris", some "FR", 0, 0⟩]
      (.ok ⟨"Paris", some "FR", 10, "clear", "01d"⟩)
      (by decide) (by decide)).2.2.2 "Paris" rfl (by decide)

/-! ## C4: favorite update is idempotent -/

/-- C4: the favorite toggle is idempotent under repeated identical calls:
for every store, city id, owner and boolean value, applying
`updateCityFavoriteForUser(cityId, userId, value)` twice yields the same
store state and the same returned city representation as applying it once. -/
theorem favorite_update_idempotent (store : List City) (cityId uid : Nat)
    (fav : Bool) :
    updateCityFavoriteForUser
        (updateCityFavoriteForUser store cityId uid fav).2 cityId uid fav =
      updateCityFavoriteForUser store cityId uid fav := by
  induction store with
  | nil => rfl
  | cons c rest ih =>
    by_cases hc : c.id = cityId ∧ c.userId = uid
    · simp only [updateCityFavoriteForUser, if_pos hc]
    · simp only [updateCityFavoriteForUser, if_neg hc, ih]

/-! ## C5 (corrected): non-owned delete is a no-op but replies 204, not 404;
the non-owned favorite update is a no-op and replies 404 -/

/-- C5 counterexample: the claim says a DELETE of a non-owned city reports
404; on the code the handler replies 204 unconditionally.  City 5 is owned by
user 1, user 2 deletes it: the document stays, the status is 204 ≠ 404. -/
theorem deleteCity_non_owned_status_204 :
    (deleteCity [⟨5, 1, "Paris", "paris", some "FR", none, false⟩]
        (some 2) 5).status = 204 ∧
    ¬ (deleteCity [⟨5, 1, "Paris", "paris", some "FR", none, false⟩]
        (some 2) 5).status = 404 ∧
    (deleteCity [⟨5, 1, "Paris", "paris", some "FR", none, false⟩]
        (some 2) 5).store =
      [⟨5, 1, "Paris", "paris", some "FR", none, false⟩] := by
  decide

/-- C5 (amended): for every city collection in which every document with the
requested id is owned by user `a`, and every distinct user `b`, the DELETE
handler run by `b` removes no document and replies 204 No Content, and the
favorite update by `b` matches no document, modifies nothing, and replies
404. -/
theorem non_owned_delete_noop_toggle_404 (store : List City)
    (a b cityId : Nat) (v : JsValue)
    (hown : ∀ d ∈ store, d.id = cityId → d.userId = a) (hab : b ≠ a) :
    deleteCity store (some b) cityId =
      { status := 204, message := none, store := store } ∧
    toggleFavorite store (some b) cityId v =
      { status := 404, message := some "City not found", city? := none,
        store := store } := by
  have hno : ∀ d ∈ store, ¬(d.id = cityId ∧ d.userId = b) := by
    intro d hd hdb
    exact hab (hdb.2.symm.trans (hown d hd hdb.1))
  constructor
  · simp only [deleteCity, deleteCityForUser_no_match store cityId b hno]
  · simp only [toggleFavorite,
      updateCityFavoriteForUser_no_match store cityId b (truthy v) hno]

theorem non_owned_delete_noop_toggle_404_witness :
    deleteCity [⟨6, 1, "Oslo", "oslo", some "NO", none, false⟩] (some 2) 6 =
      { status := 204, message := none,
        store := [⟨6, 1, "Oslo", "oslo", some "NO", none, false⟩] } ∧
    toggleFavorite [⟨6, 1, "Oslo", "oslo", some "NO", none, false⟩]
        (some 2) 6 .null =
      { status := 404, message := some "City not found", city? := none,
        store := [⟨6, 1, "Oslo", "oslo", some "NO", none, false⟩] } :=
  non_owned_delete_noop_toggle_404
    [⟨6, 1, "Oslo", "oslo", some "NO", none, false⟩] 1 2 6 .null
    (by decide) (by decide)

/-! ## C10: the favorite endpoint sets (not toggles) the coerced flag -/

/-- C10: the favorite endpoint sets, rather than toggles, the flag, and
coerces its input with `!!`: the handler never replies 400, the returned city
representation carries exactly the boolean coercion of the body field, the
store is the result of setting that coerced value, and the coercion maps
undefined/null to false, booleans to themselves. -/
theorem toggleFavorite_sets_coerced_flag (store : List City)
    (uid cityId : Nat) (v : JsValue) :
    ((toggleFavorite store (some uid) cityId v).status = 200 ∨
     (toggleFavorite store (some uid) cityId v).status = 404) ∧
    (∀ cj, (toggleFavorite store (some uid) cityId v).city? = some cj →
       cj.isFavorite = truthy v) ∧
    (toggleFavorite store (some uid) cityId v).store =
      (updateCityFavoriteForUser store cityId uid (truthy v)).2 ∧
    truthy .undefined = false ∧ truthy .null = false ∧
    (∀ b, truthy (.bool b) = b) := by
  refine ⟨?_, ?_, ?_, rfl, rfl, fun b => rfl⟩
  · cases h : (updateCityFavoriteForUser store cityId uid (truthy v)).1 with
    | none => simp [toggleFavorite, h]
    | some c => simp [toggleFavorite, h]
  · intro cj hcj
    cases h : (updateCityFavoriteForUser store cityId uid (truthy v)).1 with
    | none => simp [toggleFavorite, h] at hcj
    | some c =>
      simp only [toggleFavorite, h] at hcj
      cases hcj
      exact (updateCityFavoriteForUser_found store cityId uid (truthy v) c h).1
  · cases h : (updateCityFavoriteForUser store cityId uid (truthy v)).1 with
    | none => simp [toggleFavorite, h]
    | some c => simp [toggleFavorite, h]

theorem toggleFavorite_sets_coerced_flag_witness :
    ({ id := 5, name := "Paris", country := some "FR", isFavorite := true } :
        CityJson).isFavorite = truthy (.str "yes") :=
  (toggleFavorite_sets_coerced_flag
      [⟨5, 1, "Paris", "paris", some "FR", none, false⟩] 1 5 (.str "yes")).2.1
    ⟨5, "Paris", some "FR", true⟩ (by decide)

/-! ## C6 (corrected): login with a wrong password always fails, but the
endpoint's 401 presupposes non-empty credentials -/

/-- C6 counterexample: with no users and an empty email string, `loginUser`
does throw INVALID_CREDENTIALS, but the endpoint replies 400 (missing/empty
field validation), not 401 as the claim states for every email/password. -/
theorem login_empty_email_status_400 :
    loginUser (fun _ _ => false) [] "" "x" = .error "INVALID_CREDENTIALS" ∧
    (login (fun _ _ => false) [] (some "") (some "x")).status = 400 ∧
    ¬ (login (fun _ _ => false) [] (some "") (some "x")).status = 401 := by
  refine ⟨rfl, rfl, ?_⟩
  decide

/-- C6 (amended): for every non-empty email and password, if no user with
that email exists or the supplied password does not compare true against the
stored hash, `loginUser` throws INVALID_CREDENTIALS and the login endpoint
replies 401 with no token issued. -/
theorem login_wrong_password_fails (compare : HashCompare) (users : List User)
    (email pw : String) (he : email ≠ "") (hp : pw ≠ "")
    (h : ∀ u, findUserByEmail users email = some u →
      compare pw u.passwordHash = false) :
    loginUser compare users email pw = .error "INVALID_CREDENTIALS" ∧
    login compare users (some email) (some pw) =
      { status := 401, message := some "Invalid email or password",
        token? := none } := by
  have hlu : loginUser compare users email pw = .error "INVALID_CREDENTIALS" := by
    unfold loginUser
    cases hf : findUserByEmail users email with
    | none => rfl
    | some u => simp [h u hf]
  refine ⟨hlu, ?_⟩
  simp only [login]
  rw [if_neg (not_or.mpr ⟨he, hp⟩), hlu]
  rfl

theorem login_wrong_password_fails_witness :
    loginUser (fun _ _ => false) [⟨1, "Ada", "ada@example.com", "h1"⟩]
        "ada@example.com" "wrong" = .error "INVALID_CREDENTIALS" ∧
    login (fun _ _ => false) [⟨1, "Ada", "ada@example.com", "h1"⟩]
        (some "ada@example.com") (some "wrong") =
      { status := 401, message := some "Invalid email or password",
        token? := none } :=
  login_wrong_password_fails (fun _ _ => false)
    [⟨1, "Ada", "ada@example.com", "h1"⟩] "ada@example.com" "wrong"
    (by decide) (by decide) (fun u _ => rfl)

/-! ## C9: nameNormalized is the lowercased display name, and it is the
uniqueness-key component -/

theorem updateCityFavoriteForUser_mem (store : List City) (cityId uid : Nat)
    (fav : Bool) (d : City)
    (hd : d ∈ (updateCityFavoriteForUser store cityId uid fav).2) :
    d ∈ store ∨ ∃ c ∈ store, d = { c with isFavorite := fav } := by
  induction store with
  | nil => simp [updateCityFavoriteForUser] at hd
  | cons c rest ih =>
    by_cases hc : c.id = cityId ∧ c.userId = uid
    · simp only [updateCityFavoriteForUser, if_pos hc] at hd
      rcases List.mem_cons.mp hd with h | h
      · exact Or.inr ⟨c, by simp, h⟩
      · exact Or.inl (by simp [h])
    · simp only [updateCityFavoriteForUser, if_neg hc] at hd
      rcases List.mem_cons.mp hd with h | h
      · exact Or.inl (by simp [h])
      · rcases ih h with h' | ⟨c', hc', he⟩
        · exact Or.inl (by simp [h'])
        · exact Or.inr ⟨c', by simp [hc'], he⟩

/-- C9: every document created via `createCity` stores
`nameNormalized = toLowerCase(name)` (the geocoder's canonical name,
lowercased); the invariant is preserved by `createCity` and by the favorite
update (which changes only `isFavorite`); and the uniqueness key of a
document is exactly (userId, nameNormalized, country). -/
theorem created_city_normalized_name (store : List City) (freshId : Nat)
    (user? : Option Nat) (name? country? : Option String)
    (geo : List ResolvedLocation) (weather : WeatherOutcome)
    (cityId uid : Nat) (fav : Bool) :
    (∀ d, d ∈ (createCity store freshId user? name? country? geo weather).store →
      d ∉ store → d.nameNormalized = toLowerCase d.name) ∧
    (nameNormInv store →
      nameNormInv (createCity store freshId user? name? country? geo weather).store) ∧
    (nameNormInv store →
      nameNormInv (updateCityFavoriteForUser store cityId uid fav).2) ∧
    (∀ c : City, cityKey c = (c.userId, c.nameNormalized, c.country)) := by
  have hnew : ∀ d, d ∈ (createCity store freshId user? name? country? geo weather).store →
      d ∉ store → d.nameNormalized = toLowerCase d.name := by
    intro d hd hnd
    rcases createCity_result store freshId user? name? country? geo weather with
      ⟨hs, _⟩ | ⟨_, d₀, hs, hnorm, _⟩
    · rw [hs] at hd; exact absurd hd hnd
    · rw [hs] at hd
      rcases List.mem_append.mp hd with h | h
      · exact absurd h hnd
      · simp only [List.mem_singleton] at h
        subst h
        exact hnorm
  refine ⟨hnew, ?_, ?_, fun c => rfl⟩
  · intro hinv d hd
    by_cases hnd : d ∈ store
    · exact hinv d hnd
    · exact hnew d hd hnd
  · intro hinv d hd
    rcases updateCityFavoriteForUser_mem store cityId uid fav d hd with
      h | ⟨c, hc, he⟩
    · exact hinv d h
    · subst he
      exact hinv c hc

theorem created_city_normalized_name_witness :
    City.nameNormalized ⟨1, 7, "Paris", "paris", some "FR", none, false⟩ =
      toLowerCase (City.name ⟨1, 7, "Paris", "paris", some "FR", none, false⟩) :=
  (created_city_normalized_name [] 1 (some 7) (some "Paris") none
      [⟨"Paris", some "FR", 0, 0⟩] (.ok ⟨"Paris", some "FR", 10, "clear", "01d"⟩)
      0 0 false).1
    ⟨1, 7, "Paris", "paris", some "FR", none, false⟩ (by decide) (by decide)

/-! ## C7: AI fallback — heuristic min/max/average over parsed lines -/

theorem insertTemp_perm (x : TempEntry) (l : List TempEntry) :
    (insertTemp x l).Perm (x :: l) := by
  induction l with
  | nil => exact List.Perm.refl _
  | cons y ys ih =>
    unfold insertTemp
    by_cases h : x.temp < y.temp
    · rw [if_pos h]
    · rw [if_neg h]
      exact (ih.cons y).trans (List.Perm.swap x y ys)

theorem sortTemps_perm (l : List TempEntry) : (sortTemps l).Perm l := by
  induction l with
  | nil => exact List.Perm.refl _
  | cons x xs ih =>
    exact (insertTemp_perm x (sortTemps xs)).trans (ih.cons x)

theorem insertTemp_sorted (x : TempEntry) (l : List TempEntry)
    (h : l.Pairwise (fun a b => a.temp ≤ b.temp)) :
    (insertTemp x l).Pairwise (fun a b => a.temp ≤ b.temp) := by
  induction l with
  | nil => simp [insertTemp]
  | cons y ys ih =>
    rcases List.pairwise_cons.mp h with ⟨hy, hys⟩
    unfold insertTemp
    by_cases hxy : x.temp < y.temp
    · rw [if_pos hxy]
      refine List.pairwise_cons.mpr ⟨?_, h⟩
      intro b hb
      rcases List.mem_cons.mp hb with rfl | hb'
      · exact le_of_lt hxy
      · exact (le_of_lt hxy).trans (hy b hb')
    · rw [if_neg hxy]
      refine List.pairwise_cons.mpr ⟨?_, ih hys⟩
      intro b hb
      have hb' : b ∈ x :: ys := (insertTemp_perm x ys).mem_iff.mp hb
      rcases List.mem_cons.mp hb' with rfl | hb''
      · exact le_of_not_lt hxy
      · exact hy b hb''

theorem sortTemps_sorted (l : List TempEntry) :
    (sortTemps l).Pairwise (fun a b => a.temp ≤ b.temp) := by
  induction l with
  | nil => simp [sortTemps]
  | cons x xs ih => exact insertTemp_sorted x (sortTemps xs) ih

theorem sorted_head_min (l : List TempEntry)
    (h : l.Pairwise (fun a b => a.temp ≤ b.temp)) (a : TempEntry)
    (ha : l.head? = some a) : ∀ y ∈ l, a.temp ≤ y.temp := by
  cases l with
  | nil => cases ha
  | cons c t =>
    injection ha with ha'
    subst ha'
    intro y hy
    rcases List.mem_cons.mp hy with rfl | hy'
    · exact le_refl _
    · exact (List.pairwise_cons.mp h).1 y hy'

theorem mem_of_getLast?_eq (l : List TempEntry) (a : TempEntry)
    (ha : l.getLast? = some a) : a ∈ l := by
  induction l with
  | nil => cases ha
  | cons c t ih =>
    cases t with
    | nil =>
      simp only [List.getLast?_singleton] at ha
      injection ha with ha'
      simp [ha']
    | cons d t' =>
      rw [List.getLast?_cons_cons] at ha
      exact List.mem_cons_of_mem c (ih ha)

theorem sorted_last_max (l : List TempEntry)
    (h : l.Pairwise (fun a b => a.temp ≤ b.temp)) (a : TempEntry)
    (ha : l.getLast? = some a) : ∀ y ∈ l, y.temp ≤ a.temp := by
  induction l with
  | nil => cases ha
  | cons c t ih =>
    cases t with
    | nil =>
      simp only [List.getLast?_singleton] at ha
      injection ha with ha'
      subst ha'
      intro y hy
      rcases List.mem_cons.mp hy with rfl | hy'
      · exact le_refl _
      · cases hy'
    | cons d t' =>
      rw [List.getLast?_cons_cons] at ha
      rcases List.pairwise_cons.mp h with ⟨hc, hrest⟩
      intro y hy
      rcases List.mem_cons.mp hy with rfl | hy'
      · exact hc a (mem_of_getLast?_eq _ a ha)
      · exact ih hrest ha y hy'

/-- C7: with no configured (or empty) API key, or a failed external call,
`getAiInsight` returns the hand-written heuristic with `usedFallback = true`;
and whenever at least one `City: ... | N°C` line parses, the heuristic's
coldest entry is a parsed entry of minimal temperature, its warmest entry one
of maximal temperature, and the average it reports is the sum of the parsed
temperatures divided by their count. -/
theorem ai_fallback_heuristic (apiKey : Option String)
    (callResult : Except Unit String) (question summary : String) :
    ((apiKey = none ∨ apiKey = some "") →
      getAiInsight apiKey callResult question summary =
        heuristicFallback question summary) ∧
    (∀ e, callResult = .error e →
      getAiInsight apiKey callResult question summary =
        heuristicFallback question summary) ∧
    (heuristicFallback question summary).usedFallback = true ∧
    (parseTemps summary ≠ [] →
      ∃ cold warm,
        (sortTemps (parseTemps summary)).head? = some cold ∧
        (sortTemps (parseTemps summary)).getLast? = some warm ∧
        cold ∈ parseTemps summary ∧ warm ∈ parseTemps summary ∧
        (∀ x ∈ parseTemps summary, cold.temp ≤ x.temp ∧ x.temp ≤ warm.temp) ∧
        sumTemps (sortTemps (parseTemps summary)) = sumTemps (parseTemps summary) ∧
        (sortTemps (parseTemps summary)).length = (parseTemps summary).length) := by
  refine ⟨?_, ?_, ?_, ?_⟩
  · rintro (rfl | rfl) <;> rfl
  · rintro e rfl
    rcases apiKey with _ | k
    · rfl
    · by_cases hk : k = ""
      · simp [getAiInsight, hk]
      · simp [getAiInsight, hk]
  · by_cases h : nonEmptyLines summary = [] <;> simp [heuristicFallback, h]
  · intro hne
    have hperm := sortTemps_perm (parseTemps summary)
    have hsorted := sortTemps_sorted (parseTemps summary)
    have hlen := hperm.length_eq
    cases hs : sortTemps (parseTemps summary) with
    | nil =>
      rw [hs] at hlen
      exact absurd (List.length_eq_zero.mp hlen.symm) hne
    | cons c t =>
      have hlast : ∃ w, (c :: t).getLast? = some w := by
        cases hw : (c :: t).getLast? with
        | none => simp [List.getLast?_eq_none_iff] at hw
        | some w => exact ⟨w, rfl⟩
      obtain ⟨w, hw⟩ := hlast
      rw [hs] at hperm hsorted
      refine ⟨c, w, rfl, hw, ?_, ?_, ?_, ?_, ?_⟩
      · exact hperm.mem_iff.mp (by simp)
      · exact hperm.mem_iff.mp (mem_of_getLast?_eq _ w hw)
      · intro x hx
        have hx' : x ∈ c :: t := hperm.mem_iff.mpr hx
        exact ⟨sorted_head_min _ hsorted c rfl x hx',
          sorted_last_max _ hsorted w hw x hx'⟩
      · unfold sumTemps
        exact (hperm.map (fun t => t.temp)).sum_eq
      · exact hperm.length_eq

theorem ai_fallback_heuristic_witness :
    getAiInsight none (.error ()) "q"
        "City: Paris (FR) | 21.5°C, clear\nCity: Oslo | -3°C, snow" =
      heuristicFallback "q"
        "City: Paris (FR) | 21.5°C, clear\nCity: Oslo | -3°C, snow" ∧
    (heuristicFallback "q"
        "City: Paris (FR) | 21.5°C, clear\nCity: Oslo | -3°C, snow").usedFallback =
      true ∧
    sumTemps (sortTemps (parseTemps
        "City: Paris (FR) | 21.5°C, clear\nCity: Oslo | -3°C, snow")) =
      sumTemps (parseTemps
        "City: Paris (FR) | 21.5°C, clear\nCity: Oslo | -3°C, snow") := by
  have h := ai_fallback_heuristic none (.error ()) "q"
    "City: Paris (FR) | 21.5°C, clear\nCity: Oslo | -3°C, snow"
  obtain ⟨cold, warm, _, _, _, _, _, hsum, _⟩ := h.2.2.2 (by decide)
  exact ⟨h.1 (Or.inl rfl), h.2.2.1, hsum⟩

/-! ## C8 (corrected): per-city weather failures are skipped in getInsights,
and only 404-like weather-validation failures abort createCity -/

/-- C8 counterexample: user 1 has two cities; fetching weather for city 5
fails with a 500-style error, yet the insights request replies 200 and its
weather summary still contains the remaining city — the first error did not
abort the request.  Likewise `createCity` with a 500-style weather-validation
failure still persists the city with 201. -/
theorem first_error_aborts_counterexample :
    (getInsights
        [⟨5, 1, "Paris", "paris", some "FR", none, false⟩,
         ⟨6, 1, "Oslo", "oslo", some "NO", none, false⟩]
        (some 1) (some "q")
        (fun c => if c.id = 5 then .error ⟨some 500, none, none⟩
                  else .ok ⟨"Oslo", some "NO", 7, "snow", "13d"⟩)
        none (.error ())).status = 200 ∧
    (getInsights
        [⟨5, 1, "Paris", "paris", some "FR", none, false⟩,
         ⟨6, 1, "Oslo", "oslo", some "NO", none, false⟩]
        (some 1) (some "q")
        (fun c => if c.id = 5 then .error ⟨some 500, none, none⟩
                  else .ok ⟨"Oslo", some "NO", 7, "snow", "13d"⟩)
        none (.error ())).weatherSummary =
      some "City: Oslo (NO) | 7.0°C, snow" ∧
    (createCity [] 1 (some 7) (some "Paris") none [⟨"Paris", some "FR", 0, 0⟩]
        (.error ⟨some 500, none, none⟩)).status = 201 ∧
    (createCity [] 1 (some 7) (some "Paris") none [⟨"Paris", some "FR", 0, 0⟩]
        (.error ⟨some 500, none, none⟩)).store =
      [⟨1, 7, "Paris", "paris", some "FR", none, false⟩] := by
  refine ⟨rfl, ?_, rfl, rfl⟩
  decide

/-- C8 (amended): there is no per-request retry, but the two spots the claim
names do not abort on first error: (i) in the AI insights handler a failed
per-city weather fetch is caught and that city skipped, the handler replies
200 with the summary built from exactly the successful fetches; (ii) in
`createCity` a weather-validation error aborts (400, nothing stored) only
when it is 404-like, while any other weather error leaves the handler on
exactly the same course as a successful validation. -/
theorem first_error_handling (store : List City) (uid : Nat) (q : String)
    (weatherFor : City → WeatherOutcome) (apiKey : Option String)
    (aiCall : Except Unit String) (freshId : Nat) (pname pnorm : String)
    (pcountry : Option String) (e : WeatherErr) (w : WeatherData)
    (hq : ¬(q = "" ∨ jsTrim q = "")) (hc : ¬ listCitiesForUser store uid = []) :
    (getInsights store (some uid) (some q) weatherFor apiKey aiCall).status = 200 ∧
    (getInsights store (some uid) (some q) weatherFor apiKey aiCall).weatherSummary =
      some (joinLines ((listCitiesForUser store uid).filterMap (fun c =>
        match weatherFor c with
        | .ok w' => some (weatherLine w')
        | .error _ => none))) ∧
    (¬ weatherAborts (.error e) →
      weatherAndSave store freshId uid pname pnorm pcountry (.error e) =
        weatherAndSave store freshId uid pname pnorm pcountry (.ok w)) ∧
    (weatherAborts (.error e) →
      weatherAndSave store freshId uid pname pnorm pcountry (.error e) =
        { status := 400,
          message := some "We couldn't load weather for this city. It may not exist or be supported.",
          city? := none, store := store, calls := [.geocode, .weather] }) := by
  refine ⟨?_, ?_, ?_, ?_⟩
  · simp [getInsights, hq, hc]
  · simp [getInsights, hq, hc]
  · intro he
    unfold weatherAndSave
    rw [if_neg he, if_neg (fun h => h : ¬ weatherAborts (.ok w))]
  · intro he
    unfold weatherAndSave
    rw [if_pos he]

theorem first_error_handling_witness :
    (getInsights [⟨6, 1, "Oslo", "oslo", some "NO", none, false⟩] (some 1)
        (some "q") (fun _ => .error ⟨some 500, none, none⟩) none (.error ())).status =
      200 ∧
    weatherAndSave [⟨6, 1, "Oslo", "oslo", some "NO", none, false⟩] 1 1
        "Paris" "paris" (some "FR") (.error ⟨some 500, none, none⟩) =
      weatherAndSave [⟨6, 1, "Oslo", "oslo", some "NO", none, false⟩] 1 1
        "Paris" "paris" (some "FR")
        (.ok ⟨"Paris", some "FR", 10, "clear", "01d"⟩) := by
  have h := first_error_handling [⟨6, 1, "Oslo", "oslo", some "NO", none, false⟩]
    1 "q" (fun _ => .error ⟨some 500, none, none⟩) none (.error ()) 1 "Paris"
    "paris" (some "FR") ⟨some 500, none, none⟩
    ⟨"Paris", some "FR", 10, "clear", "01d"⟩ (by decide) (by decide)
  exact ⟨h.1, h.2.2.1 (by decide)⟩

end Trao
